import Mathlib

/-!
# Verification of the manifest-parsing and metric-evaluation core

Shallow embedding, in Lean 4, of the repository's core:

* `src/src/url_class.py` — URL classifier and manifest parser
  (`parse_huggingface_url`, `parse_dataset_url`, `parse_project_file`);
* `src/src/metrics/calculate_license_score.py` — the license metric;
* the concurrent evaluator contract used by `src/run.py`
  (the implementation module `metric_caller` is not among the sources,
  so it is modelled from the specification).

Python strings are modelled as Lean `String`s, Python lists as Lean `List`s,
Python floats that only ever carry exact decimal score values as `ℚ`,
exceptions as `Except String`, and the wall clock as explicit rational
timestamps.
-/

namespace Py

/-- Characters treated as whitespace by Python's `str.strip()` for the
ASCII inputs handled here (space, tab, newline, carriage return,
vertical tab, form feed). -/
def pyWhitespace (c : Char) : Bool :=
  c = ' ' || c = '\t' || c = '\n' || c = '\r' || c = '\x0b' || c = '\x0c'

/-- Remove leading and trailing characters satisfying `p`,
as Python's `str.strip(chars)` does. -/
def stripWhile (p : Char → Bool) (l : List Char) : List Char :=
  ((l.dropWhile p).reverse.dropWhile p).reverse

/-- Python `s.strip()` (no argument: strip whitespace). -/
def pyStrip (s : String) : String := ⟨stripWhile pyWhitespace s.data⟩

/-- Python `s.strip("/")`. -/
def stripSlashes (s : String) : String := ⟨stripWhile (fun c => c = '/') s.data⟩

/-- Python `s.lower()` for the ASCII inputs handled here. -/
def pyLower (s : String) : String := ⟨s.data.map Char.toLower⟩

/-- Python `s.split(sep)` for a one-character separator, on character
lists: `split "" = [""]`, and empty fields are kept. -/
def splitOnChar (sep : Char) : List Char → List (List Char)
  | [] => [[]]
  | c :: t =>
    if c = sep then [] :: splitOnChar sep t
    else
      match splitOnChar sep t with
      | h :: r => (c :: h) :: r
      | [] => [[c]]

/-- Python `s.split(sep)` for a one-character separator, on strings. -/
def pySplit (sep : Char) (s : String) : List String :=
  (splitOnChar sep s.data).map (fun l => ⟨l⟩)

/-- Python's substring test `needle in hay`. -/
def substrIn (needle hay : List Char) : Bool :=
  match hay with
  | [] => needle.isEmpty
  | _ :: t => needle.isPrefixOf hay || substrIn needle t

/-- `strContains hay needle` is Python's `needle in hay` on strings. -/
def strContains (hay needle : String) : Bool := substrIn needle.data hay.data

end Py

namespace UrlClass

open Py

/-! ## A model of `urllib.parse.urlparse`

Only the `netloc` and `path` components are needed by the classifier.
The model follows CPython's `urlsplit`: an optional `scheme:` prefix is
recognised when the text before the first colon is non-empty, starts with
a letter and consists of scheme characters; a `//`-led authority extends
to the next `/`, `?` or `#`; the path then runs to the first `?` or `#`.
(The `;params` split and control-character stripping of the real
`urlparse` are not modelled: no input handled here contains them.) -/

/-- Characters allowed in a URL scheme. -/
def schemeChar (c : Char) : Bool :=
  c.isAlpha || c.isDigit || c = '+' || c = '-' || c = '.'

/-- Split a character list at the first colon: `some (before, after)`,
or `none` when there is no colon. -/
def splitAtColon : List Char → Option (List Char × List Char)
  | [] => none
  | c :: t =>
    if c = ':' then some ([], t)
    else (splitAtColon t).map (fun p => (c :: p.1, p.2))

/-- Strip a valid `scheme:` prefix, returning the remainder;
an invalid or missing scheme leaves the URL untouched. -/
def dropScheme (url : List Char) : List Char :=
  match splitAtColon url with
  | none => url
  | some (bef, aft) =>
    match bef with
    | [] => url
    | c0 :: _ => if c0.isAlpha && bef.all schemeChar then aft else url

/-- A character that terminates the network-location component. -/
def netlocEnd (c : Char) : Bool := c = '/' || c = '?' || c = '#'

/-- The `netloc` component of a URL (empty when the remainder after the
scheme does not start with `//`). -/
def urlNetloc (url : String) : String :=
  match dropScheme url.data with
  | '/' :: '/' :: rest => ⟨rest.takeWhile (fun c => !netlocEnd c)⟩
  | _ => ""

/-- The `path` component of a URL: what is left after the scheme and the
netloc, truncated at the first `?` or `#`. -/
def urlPath (url : String) : String :=
  let rest :=
    match dropScheme url.data with
    | '/' :: '/' :: r => r.dropWhile (fun c => !netlocEnd c)
    | other => other
  ⟨rest.takeWhile (fun c => c ≠ '?' && c ≠ '#')⟩

/-! ## The URL classifier (`src/src/url_class.py`) -/

/-- The slash-separated segments of a URL's path after stripping leading
and trailing slashes: `urlparse(url).path.strip("/").split("/")`. -/
def pathSegments (url : String) : List String :=
  pySplit '/' (stripSlashes (urlPath url))

/-- `parse_huggingface_url` from `src/src/url_class.py`:
fewer than two path segments is a `ValueError`; the first two segments
are namespace and repository; when the third segment is the literal
`tree` and a fourth segment exists, that fourth segment is the revision,
otherwise the revision is `"main"`. -/
def parse_huggingface_url (url : String) : Except String (String × String × String) :=
  match pathSegments url with
  | ns :: repo :: rest =>
    let rev : String :=
      match rest with
      | t :: r :: _ => if t = "tree" then r else "main"
      | _ => "main"
    .ok (ns, repo, rev)
  | _ => .error ("Invalid Hugging Face URL: " ++ url)

/-- `parse_dataset_url` from `src/src/url_class.py`:
a netloc containing `huggingface.co` requires a first segment `datasets`
and at least two segments, and yields the last segment; otherwise a
netloc containing `github.com` yields the URL verbatim; any other URL is
a `ValueError`. -/
def parse_dataset_url (url : String) : Except String String :=
  if strContains (urlNetloc url) "huggingface.co" then
    let parts := pathSegments url
    if parts.length < 2 ∨ parts.headD "" ≠ "datasets" then
      .error ("Invalid Hugging Face dataset URL: " ++ url)
    else
      .ok (parts.getLastD "")
  else if strContains (urlNetloc url) "github.com" then
    .ok url
  else
    .error ("Unsupported dataset URL: " ++ url)

/-! ## The manifest parser (`parse_project_file` in `src/src/url_class.py`)

The Python function reads a file and iterates over its lines; file I/O is
outside the embedding, so the parser is modelled on the list of lines. -/

/-- The `Code` dataclass of `src/src/url_class.py`. -/
structure Code where
  link : String
  ns : String := ""
deriving DecidableEq, Inhabited

/-- The `Dataset` dataclass of `src/src/url_class.py`. -/
structure Dataset where
  link : String
  ns : String := ""
  repo : String := ""
  rev : String := ""
deriving DecidableEq, Inhabited

/-- The `Model` dataclass of `src/src/url_class.py`. -/
structure Model where
  link : String
  ns : String := ""
  repo : String := ""
  rev : String := ""
deriving DecidableEq, Inhabited

/-- The `ProjectGroup` dataclass of `src/src/url_class.py`. -/
structure ProjectGroup where
  code : Option Code := none
  dataset : Option Dataset := none
  model : Option Model := none
deriving DecidableEq, Inhabited

/-- Python's padding loop followed by the 3-tuple unpacking
`code_link, dataset_link, model_link = parts`: fewer than three fields
are padded with empty strings, more than three raise `ValueError`. -/
def padTo3 (parts : List String) : Except String (String × String × String) :=
  match parts with
  | [] => .ok ("", "", "")
  | [a] => .ok (a, "", "")
  | [a, b] => .ok (a, b, "")
  | [a, b, c] => .ok (a, b, c)
  | _ => .error "too many values to unpack (expected 3)"

/-- The body of `parse_project_file`'s loop for one non-blank stripped
line `l`: split on commas, strip each field, pad to three fields
`(code_link, dataset_link, model_link)` — here `fields.1`, `fields.2.1`
and `fields.2.2` — then parse the model link (the source calls
`parse_huggingface_url` on it first), build the optional `Code`, parse
the dataset link, and assemble the group.  An empty field yields an
absent (`none`) component. -/
def parseLineCore (l : String) : Except String ProjectGroup :=
  Except.bind (padTo3 ((pySplit ',' l).map pyStrip)) (fun fields =>
    Except.bind
      (if fields.2.2 = "" then .ok none
       else (parse_huggingface_url fields.2.2).map some)
      (fun modelId =>
        Except.bind
          (if fields.2.1 = "" then .ok none
           else (parse_dataset_url fields.2.1).map some)
          (fun dataRepo =>
            .ok { code := if fields.1 = "" then none else some { link := fields.1 },
                  dataset := dataRepo.map (fun dr => { link := fields.2.1, repo := dr }),
                  model := modelId.map (fun i =>
                    { link := fields.2.2, ns := i.1, repo := i.2.1, rev := i.2.2 }) })))

/-- One iteration of `parse_project_file`'s loop: strip the line, skip it
when blank (`none`), otherwise parse it into a group. -/
def parseLine (line : String) : Except String (Option ProjectGroup) :=
  let l := pyStrip line
  if l = "" then .ok none
  else (parseLineCore l).map some

/-- `parse_project_file` from `src/src/url_class.py`, on the file's list
of lines: groups accumulate in line order and the first raised error
aborts the whole parse. -/
def parse_project_file (lines : List String) : Except String (List ProjectGroup) :=
  match lines with
  | [] => .ok []
  | line :: rest => do
    let g? ← parseLine line
    let gs ← parse_project_file rest
    match g? with
    | some g => pure (g :: gs)
    | none => pure gs

/-- A line is blank when it strips to the empty string. -/
def blankLine (line : String) : Bool := pyStrip line = ""

/-- Whether an `Except` result is a success. -/
def isOkE {ε α : Type} (e : Except ε α) : Bool :=
  match e with
  | .ok _ => true
  | .error _ => false

/-- A manifest line is well-formed when parsing it raises no error. -/
def wellFormedLine (line : String) : Bool := isOkE (parseLine line)

/-- The group a well-formed non-blank line parses to. -/
def groupOfLine (line : String) : ProjectGroup :=
  match parseLineCore (pyStrip line) with
  | .ok g => g
  | .error _ => {}

/-- The spec's example manifest line. -/
def gpt2Line : String := ",,https://huggingface.co/openai-community/gpt2"

/-- The group the spec's example line parses to: absent code and dataset,
model resolved to `("openai-community", "gpt2", "main")`. -/
def gpt2Group : ProjectGroup :=
  { code := none, dataset := none,
    model := some { link := "https://huggingface.co/openai-community/gpt2",
                    ns := "openai-community", repo := "gpt2", rev := "main" } }

/-- The group a one-field line `only-code-field` parses to: the two
missing trailing fields are padded as empty, so dataset and model are
absent. -/
def codeOnlyGroup : ProjectGroup :=
  { code := some { link := "only-code-field" }, dataset := none, model := none }

end UrlClass

namespace LicenseMetric

open Py

/-! ## The license metric (`src/src/metrics/calculate_license_score.py`)

Ambient effects of the Python function are made explicit parameters:
the process id (`os.getpid()`), the two wall-clock readings
(`time.time()` before and after the `try` block), and the log queue,
modelled as the list of queued messages in arrival order.  Scores are
exact decimal constants, modelled as rationals. -/

/-- Tier 1: highly permissive licenses (score 1.0). -/
def permissive_licenses : List String :=
  ["mit", "apache-2.0", "apache2", "apache license 2.0",
   "bsd-2-clause", "bsd-3-clause", "bsd-2", "bsd-3", "bsd",
   "unlicense", "cc0", "creative commons zero"]

/-- Tier 3: other permissive licenses (score 0.8). -/
def tier3_licenses : List String :=
  ["mpl-2.0", "mpl2", "mozilla public license 2.0",
   "eclipse-2.0", "eclipse public license 2.0"]

/-- Tier 4: LGPL family (score 0.7). -/
def tier4_licenses : List String := ["lgpl", "lgpl-", "lesser general public license"]

/-- Tier 5, second arm: modern ML licenses (score 0.6). -/
def tier5_licenses : List String := ["llama2", "gemma", "bigscience", "bigcode"]

/-- Tier 6: weak copyleft (score 0.6). -/
def tier6_licenses : List String := ["lgpl-3.0", "lgplv3", "epl-1.0", "epl-2.0"]

/-- Tier 7, first arm: GPL-2.0 (score 0.5). -/
def tier7a_licenses : List String := ["gpl-2.0", "gplv2"]

/-- Tier 7, second arm: strong copyleft (score 0.3). -/
def tier7b_licenses : List String := ["gpl-3.0", "gplv3", "gpl", "agpl", "affero gpl"]

/-- Tier 8: restricted / non-commercial (score 0.2). -/
def tier8_licenses : List String :=
  ["non-commercial", "noncommercial", "research-only", "research use",
   "no-derivatives", "cc-by-nc", "educational", "academic", "non-profit"]

/-- Tier 9: proprietary / closed (score 0.0). -/
def tier9_licenses : List String :=
  ["proprietary", "closed source", "commercial", "all rights reserved"]

/-- Python's `any(license in license_text for license in lst)`. -/
def anyIn (lst : List String) (text : String) : Bool :=
  lst.any (fun lic => strContains text lic)

/-- Python truthiness of `license_info` (`None` and `""` are falsy). -/
def licenseTruthy (license_info : Option String) : Bool :=
  match license_info with
  | none => false
  | some s => s ≠ ""

/-- Python `str(license_info)`. -/
def pyStr (license_info : Option String) : String :=
  match license_info with
  | none => "None"
  | some s => s

/-- `license_text = str(license_info).lower().strip() if license_info else "unknown"`. -/
def license_text_of (license_info : Option String) : String :=
  if licenseTruthy license_info then pyStrip (pyLower (pyStr license_info)) else "unknown"

/-- The tiered cascade inside the `try` block: the score together with
the `[INFO]` message the matching tier logs. -/
def tier_result (license_text : String) : ℚ × String :=
  if anyIn permissive_licenses license_text then
    (1, "[INFO] Highly permissive license -> Score = 1.0")
  else if strContains license_text "lgpl-2.1" || strContains license_text "lgplv2.1" then
    (9/10, "[INFO] LGPL-2.1 license -> Score = 0.9")
  else if anyIn tier3_licenses license_text then
    (8/10, "[INFO] Permissive with conditions -> Score = 0.8")
  else if anyIn tier4_licenses license_text then
    (7/10, "[INFO] LGPL family license -> Score = 0.7")
  else if strContains license_text "openrail" then
    (7/10, "[INFO] OpenRAIL license -> Score = 0.7")
  else if anyIn tier5_licenses license_text then
    (6/10, "[INFO] Modern ML license -> Score = 0.6")
  else if anyIn tier6_licenses license_text then
    (6/10, "[INFO] Weak copyleft license -> Score = 0.6")
  else if anyIn tier7a_licenses license_text then
    (1/2, "[INFO] GPL-2.0 license -> Score = 0.5")
  else if anyIn tier7b_licenses license_text then
    (3/10, "[INFO] Strong copyleft license -> Score = 0.3")
  else if anyIn tier8_licenses license_text then
    (1/5, "[INFO] Restricted license -> Score = 0.2")
  else if anyIn tier9_licenses license_text then
    (0, "[INFO] Proprietary license -> Score = 0.0")
  else
    (1/2, "[INFO] Unknown license -> Score = 0.5")

/-- Prefix a log message with the `[{pid}]` tag. -/
def pidTag (pid : ℕ) (msg : String) : String := "[" ++ toString pid ++ "] " ++ msg

/-- The `try` block: log the presence of license info, lower and strip
it, and run the tier cascade; returns the score and the grown queue. -/
def tryResult (license_info : Option String) (verbosity : ℤ) (q : List String) (pid : ℕ) :
    ℚ × List String :=
  let q1 :=
    if 1 ≤ verbosity then
      if licenseTruthy license_info then
        q ++ [pidTag pid ("[INFO] License info found: " ++ pyStr license_info)]
      else q ++ [pidTag pid "[INFO] No license info found"]
    else q
  let r := tier_result (license_text_of license_info)
  (r.1, if 1 ≤ verbosity then q1 ++ [pidTag pid r.2] else q1)

/-- The `except` arm: log the error and fall back to the conservative
default score 0.5. -/
def exceptResult (verbosity : ℤ) (q : List String) (pid : ℕ) : ℚ × List String :=
  (1/2, if 1 ≤ verbosity then
      q ++ [pidTag pid "[CRITICAL ERROR] calculating license score"]
    else q)

/-- `calculate_license_score` from
`src/src/metrics/calculate_license_score.py`.  `fault` models an
exception escaping inside the `try` block (in which case the `except`
arm runs); `t0` and `t1` are the wall-clock readings around the block,
so the reported latency is `t1 - t0`.  The decimal formatting inside the
final f-string log message is not modelled (no claim depends on log
text). -/
def calculate_license_score (license_info : Option String) (verbosity : ℤ)
    (log_queue : List String) (pid : ℕ) (fault : Bool) (t0 t1 : ℚ) :
    (ℚ × ℚ) × List String :=
  let q0 :=
    if 1 ≤ verbosity then
      log_queue ++
        [pidTag pid ("[INFO] Starting license score calculation for " ++
          pyStr license_info ++ "...")]
    else log_queue
  let body :=
    if fault then exceptResult verbosity q0 pid
    else tryResult license_info verbosity q0 pid
  let time_taken := t1 - t0
  let qFinal :=
    if 1 ≤ verbosity then body.2 ++ [pidTag pid "[INFO] Finished calculation."]
    else body.2
  ((body.1, time_taken), qFinal)

end LicenseMetric

namespace Evaluator

/-! ## The concurrent evaluator

`run.py` calls `metric_caller.run_concurrently_from_file("./tasks.txt",
input_dict, x, log_file_path)`, but the `metric_caller` module is not
among the source files under review, so the evaluator is modelled from
the specification's contract (§4.4). -/

/-- The flattened per-group input record built in `src/run.py`
(the `input_dict` handed to every metric). -/
structure MetricInputRecord where
  repo_owner : String
  repo_name : String
  verbosity : ℤ
  log_queue : String
  model_size_bytes : ℚ
  github_str : String
  dataset_name : String
  filename : String
  license : String
deriving DecidableEq, Inhabited

/-- One metric's `(score, latency)` pair. -/
structure MetricResult where
  score : ℚ
  latency : ℚ
deriving DecidableEq, Inhabited

/-- Modelled from the spec: `metric_caller.run_concurrently_from_file`
(the concurrent evaluator invoked at `src/run.py:159`) is not among the
sources, so this follows spec §4.4: every selected metric is launched
against the same read-only input record; a failing metric (modelled as
`none` from the evaluation oracle) degrades to a fallback result chosen
by policy rather than aborting; results are collected in completion
order `completed`, a permutation of the selected names; the aggregate
latency is the maximum over the collected results (the spec's natural
choice for parallel execution). -/
def run_concurrently (input_record : MetricInputRecord)
    (evalMetric : String → MetricInputRecord → Option MetricResult)
    (fallback : MetricResult) (completed : List String) :
    List (String × MetricResult) × ℚ :=
  let report := completed.map
    (fun name => (name, (evalMetric name input_record).getD fallback))
  (report, (report.map (fun p => p.2.latency)).foldr max 0)

end Evaluator

section SanityChecks

example : UrlClass.pathSegments "https://host/ns/repo" = ["ns", "repo"] := by decide
example : UrlClass.parse_huggingface_url "https://host/ns/repo/tree/v2" =
    .ok ("ns", "repo", "v2") := by rfl
example : UrlClass.urlNetloc "https://huggingface.co/datasets/glue" = "huggingface.co" := by rfl
example : UrlClass.parse_dataset_url "https://huggingface.co/datasets/stanfordnlp/imdb" =
    .ok "imdb" := by rfl
example : UrlClass.parseLine "   " = .ok none := by rfl
example : UrlClass.parseLine "a,b,c,d" = .error "too many values to unpack (expected 3)" := by
  rfl
example : (LicenseMetric.tier_result "apache-2.0").1 = 1 := by rfl
example : (LicenseMetric.tier_result "gpl-3.0").1 = 3/10 := by rfl

end SanityChecks

/-! ## Helper lemmas -/

/-- `>>=` on a successful `Except` runs the continuation. -/
theorem exceptBind_ok {ε α β : Type} (a : α) (f : α → Except ε β) :
    (Except.ok a : Except ε α) >>= f = f a := rfl

/-- `>>=` on a failed `Except` propagates the error. -/
theorem exceptBind_error {ε α β : Type} (e : ε) (f : α → Except ε β) :
    (Except.error e : Except ε α) >>= f = .error e := rfl

/-- `Except.bind` on a success runs the continuation. -/
theorem ebind_ok {ε α β : Type} (a : α) (f : α → Except ε β) :
    Except.bind (Except.ok a : Except ε α) f = f a := rfl

/-- `Except.bind` on a failure propagates the error. -/
theorem ebind_error {ε α β : Type} (e : ε) (f : α → Except ε β) :
    Except.bind (Except.error e : Except ε α) f = .error e := rfl

/-- `Except.map` on a success maps the value. -/
theorem emap_ok {ε α β : Type} (f : α → β) (a : α) :
    Except.map f (Except.ok a : Except ε α) = .ok (f a) := rfl

/-- `Except.map` on a failure propagates the error. -/
theorem emap_error {ε α β : Type} (f : α → β) (e : ε) :
    Except.map f (Except.error e : Except ε α) = .error e := rfl

/-- A blank manifest line parses to `none` (it is skipped). -/
theorem parseLine_blank (line : String) (hb : UrlClass.blankLine line = true) :
    UrlClass.parseLine line = .ok none := by
  have hb' : Py.pyStrip line = "" := by simpa [UrlClass.blankLine] using hb
  simp [UrlClass.parseLine, hb']

/-- A non-blank well-formed manifest line parses to its group. -/
theorem parseLine_ok (line : String) (hb : UrlClass.blankLine line = false)
    (hw : UrlClass.wellFormedLine line = true) :
    UrlClass.parseLine line = .ok (some (UrlClass.groupOfLine line)) := by
  have hb' : ¬ Py.pyStrip line = "" := by simpa [UrlClass.blankLine] using hb
  rcases hc : UrlClass.parseLineCore (Py.pyStrip line) with e | g
  · exfalso
    rw [UrlClass.wellFormedLine, UrlClass.parseLine] at hw
    simp only [if_neg hb', hc] at hw
    simp [Except.map, UrlClass.isOkE] at hw
  · rw [UrlClass.parseLine]
    simp only [if_neg hb', hc]
    rw [UrlClass.groupOfLine, hc]
    rfl

/-- A manifest line whose parse fails aborts the whole file parse. -/
theorem parse_error_of_mem (lines : List String) (l : String) (hl : l ∈ lines)
    (he : ∃ e, UrlClass.parseLine l = .error e) :
    ∃ e, UrlClass.parse_project_file lines = .error e := by
  induction lines with
  | nil => cases hl
  | cons hd tl ih =>
    rcases hp : UrlClass.parseLine hd with e | g?
    · exact ⟨e, by rw [UrlClass.parse_project_file, hp, exceptBind_error]⟩
    · rcases List.mem_cons.mp hl with rfl | hmem
      · rcases he with ⟨e, he⟩
        rw [hp] at he
        cases he
      · rcases ih hmem with ⟨e, hrec⟩
        exact ⟨e, by rw [UrlClass.parse_project_file, hp, exceptBind_ok, hrec, exceptBind_error]⟩

/-- Padding a list of more than three fields fails the tuple unpacking. -/
theorem padTo3_error (parts : List String) (h : 3 < parts.length) :
    UrlClass.padTo3 parts = .error "too many values to unpack (expected 3)" := by
  rcases parts with _ | ⟨a, _ | ⟨b, _ | ⟨c, _ | ⟨d, t⟩⟩⟩⟩ <;> simp_all [UrlClass.padTo3]

/-- A line with a malformed (non-empty) model or dataset link fails to
parse. -/
theorem parseLine_error_of_bad_link (line code_link dataset_link model_link : String)
    (hfields : UrlClass.padTo3 ((Py.pySplit ',' (Py.pyStrip line)).map Py.pyStrip) =
      .ok (code_link, dataset_link, model_link))
    (hbad : (model_link ≠ "" ∧ ∃ e, UrlClass.parse_huggingface_url model_link = .error e) ∨
            (dataset_link ≠ "" ∧ ∃ e, UrlClass.parse_dataset_url dataset_link = .error e)) :
    ∃ e, UrlClass.parseLine line = .error e := by
  have hnb : ¬ Py.pyStrip line = "" := by
    intro h0
    rw [h0] at hfields
    have hval : UrlClass.padTo3 ((Py.pySplit ',' ("" : String)).map Py.pyStrip) =
        .ok ("", "", "") := rfl
    rw [hval] at hfields
    simp only [Except.ok.injEq, Prod.mk.injEq] at hfields
    rcases hfields with ⟨_, h2, h3⟩
    rcases hbad with ⟨hm, _⟩ | ⟨hd, _⟩
    · exact hm h3.symm
    · exact hd h2.symm
  rw [UrlClass.parseLine]
  simp only [if_neg hnb]
  suffices hcore : ∃ e, UrlClass.parseLineCore (Py.pyStrip line) = .error e by
    rcases hcore with ⟨e, hcore⟩
    exact ⟨e, by rw [hcore]; rfl⟩
  rcases hbad with ⟨hm, e, hme⟩ | ⟨hd, e, hde⟩
  · exact ⟨e, by
      simp [UrlClass.parseLineCore, hfields, ebind_ok, hm, hme, emap_error, ebind_error]⟩
  · by_cases hml : model_link = ""
    · exact ⟨e, by
        simp [UrlClass.parseLineCore, hfields, ebind_ok, hml, hd, hde,
          emap_error, ebind_error]⟩
    · rcases hmv : UrlClass.parse_huggingface_url model_link with em | v
      · exact ⟨em, by
          simp [UrlClass.parseLineCore, hfields, ebind_ok, hml, hmv,
            emap_error, ebind_error]⟩
      · exact ⟨e, by
          simp [UrlClass.parseLineCore, hfields, ebind_ok, hml, hmv, emap_ok,
            hd, hde, emap_error, ebind_error]⟩

/-- C7: a manifest whose lines are all well-formed parses to exactly one
group per non-blank line, in line order; blank lines are skipped;
missing trailing fields are padded as empty strings (a one-field line
yields a code-only group); an empty field yields an absent component, as
in `,,https://huggingface.co/openai-community/gpt2`. -/
theorem C7_wellformed_manifest (lines : List String)
    (h : ∀ l ∈ lines, UrlClass.wellFormedLine l = true) :
    UrlClass.parse_project_file lines =
      .ok ((lines.filter (fun l => !UrlClass.blankLine l)).map UrlClass.groupOfLine) ∧
    UrlClass.parseLine UrlClass.gpt2Line = .ok (some UrlClass.gpt2Group) ∧
    UrlClass.parseLine "only-code-field" = .ok (some UrlClass.codeOnlyGroup) := by
  refine ⟨?_, rfl, rfl⟩
  induction lines with
  | nil => rfl
  | cons hd tl ih =>
    have hhd := h hd (List.mem_cons_self hd tl)
    have htl := ih (fun l hl => h l (List.mem_cons_of_mem hd hl))
    rcases hb : UrlClass.blankLine hd
    · rw [UrlClass.parse_project_file, parseLine_ok hd hb hhd, exceptBind_ok, htl,
        exceptBind_ok]
      simp [hb]
      rfl
    · rw [UrlClass.parse_project_file, parseLine_blank hd hb, exceptBind_ok, htl,
        exceptBind_ok]
      simp [hb]
      rfl

/-- C7 witness: a three-line manifest (model-only line, blank line,
code-only line) parses to its two groups in order. -/
theorem C7_wellformed_manifest_witness :
    UrlClass.parse_project_file
        [",,https://huggingface.co/openai-community/gpt2", " ", "only-code-field"] =
      .ok (([",,https://huggingface.co/openai-community/gpt2", " ", "only-code-field"].filter
          (fun l => !UrlClass.blankLine l)).map UrlClass.groupOfLine) ∧
    UrlClass.parseLine UrlClass.gpt2Line = .ok (some UrlClass.gpt2Group) ∧
    UrlClass.parseLine "only-code-field" = .ok (some UrlClass.codeOnlyGroup) :=
  C7_wellformed_manifest
    [",,https://huggingface.co/openai-community/gpt2", " ", "only-code-field"]
    (by decide)

/-- C8: a line holding a malformed (non-empty) model or dataset link
makes `parse_project_file` fail as a whole: the result is an error, so
no partial group list — not even from earlier well-formed lines — is
returned. -/
theorem C8_malformed_link_aborts (lines : List String)
    (l code_link dataset_link model_link : String) (hl : l ∈ lines)
    (hfields : UrlClass.padTo3 ((Py.pySplit ',' (Py.pyStrip l)).map Py.pyStrip) =
      .ok (code_link, dataset_link, model_link))
    (hbad : (model_link ≠ "" ∧ ∃ e, UrlClass.parse_huggingface_url model_link = .error e) ∨
            (dataset_link ≠ "" ∧ ∃ e, UrlClass.parse_dataset_url dataset_link = .error e)) :
    ∃ e, UrlClass.parse_project_file lines = .error e :=
  parse_error_of_mem lines l hl
    (parseLine_error_of_bad_link l code_link dataset_link model_link hfields hbad)

/-- C8 witness: a manifest whose first line is well-formed and whose
second line holds a malformed model link fails as a whole. -/
theorem C8_malformed_link_aborts_witness :
    ∃ e, UrlClass.parse_project_file
      [",,https://huggingface.co/openai-community/gpt2", ",,https://host/onlyonesegment"] =
        .error e :=
  C8_malformed_link_aborts
    [",,https://huggingface.co/openai-community/gpt2", ",,https://host/onlyonesegment"]
    ",,https://host/onlyonesegment" "" "" "https://host/onlyonesegment"
    (by decide) rfl
    (.inl ⟨by decide, ⟨"Invalid Hugging Face URL: https://host/onlyonesegment", rfl⟩⟩)

/-- C10: a manifest line with more than three comma-separated fields
raises (`too many values to unpack`) and the whole parse fails with no
groups returned. -/
theorem C10_too_many_fields (lines : List String) (l : String) (hl : l ∈ lines)
    (hfour : 3 < (Py.pySplit ',' (Py.pyStrip l)).length) :
    ∃ e, UrlClass.parse_project_file lines = .error e := by
  refine parse_error_of_mem lines l hl ?_
  have hnb : ¬ Py.pyStrip l = "" := by
    intro h0
    rw [h0] at hfour
    have : (Py.pySplit ',' ("" : String)).length = 1 := rfl
    omega
  rw [UrlClass.parseLine]
  simp only [if_neg hnb]
  refine ⟨"too many values to unpack (expected 3)", ?_⟩
  rw [UrlClass.parseLineCore,
    padTo3_error _ (by simpa using hfour), ebind_error]
  rfl

/-- C10 witness: the line `a,b,c,d` has four fields and aborts the
parse. -/
theorem C10_too_many_fields_witness :
    ∃ e, UrlClass.parse_project_file ["a,b,c,d"] = .error e :=
  C10_too_many_fields ["a,b,c,d"] "a,b,c,d" (by decide) (by decide)

set_option maxHeartbeats 1000000 in
/-- Every tier of the license cascade scores within `[0, 1]`. -/
theorem tier_result_bounds (t : String) :
    0 ≤ (LicenseMetric.tier_result t).1 ∧ (LicenseMetric.tier_result t).1 ≤ 1 := by
  unfold LicenseMetric.tier_result
  split_ifs <;> constructor <;> norm_num

/-- C2: for every input — any license descriptor or `None`, any
verbosity, any log-sink state, any process id, and whether or not an
internal error escapes the `try` block — `calculate_license_score`
returns a result rather than aborting (the embedding is total): the
score lies in `[0, 1]`, the latency is the non-negative span between the
two clock readings, and an internal error still yields the defined
fallback score `0.5`. -/
theorem C2_license_metric_total (license_info : Option String) (verbosity : ℤ)
    (log_queue : List String) (pid : ℕ) (fault : Bool) (t0 t1 : ℚ)
    (hclock : t0 ≤ t1) :
    0 ≤ (LicenseMetric.calculate_license_score license_info verbosity log_queue
          pid fault t0 t1).1.1 ∧
    (LicenseMetric.calculate_license_score license_info verbosity log_queue
      pid fault t0 t1).1.1 ≤ 1 ∧
    0 ≤ (LicenseMetric.calculate_license_score license_info verbosity log_queue
          pid fault t0 t1).1.2 ∧
    (fault = true →
      (LicenseMetric.calculate_license_score license_info verbosity log_queue
        pid fault t0 t1).1.1 = 1/2) := by
  cases fault with
  | false =>
    refine ⟨?_, ?_, ?_, fun hf => nomatch hf⟩
    · show 0 ≤ (LicenseMetric.tier_result (LicenseMetric.license_text_of license_info)).1
      exact (tier_result_bounds _).1
    · show (LicenseMetric.tier_result (LicenseMetric.license_text_of license_info)).1 ≤ 1
      exact (tier_result_bounds _).2
    · show (0 : ℚ) ≤ t1 - t0
      exact sub_nonneg.mpr hclock
  | true =>
    refine ⟨?_, ?_, ?_, fun _ => rfl⟩
    · show (0 : ℚ) ≤ 1/2
      norm_num
    · show (1/2 : ℚ) ≤ 1
      norm_num
    · show (0 : ℚ) ≤ t1 - t0
      exact sub_nonneg.mpr hclock

/-- C2 witness: the metric at `license_info = None`, verbosity 0, an
empty queue, a fault inside the `try` block, and clock readings 2 and 5:
it still returns, with the fallback score `0.5` and latency 3. -/
theorem C2_license_metric_total_witness :
    0 ≤ (LicenseMetric.calculate_license_score none 0 [] 7 true 2 5).1.1 ∧
    (LicenseMetric.calculate_license_score none 0 [] 7 true 2 5).1.1 ≤ 1 ∧
    0 ≤ (LicenseMetric.calculate_license_score none 0 [] 7 true 2 5).1.2 ∧
    (true = true →
      (LicenseMetric.calculate_license_score none 0 [] 7 true 2 5).1.1 = 1/2) :=
  C2_license_metric_total none 0 [] 7 true 2 5 (by norm_num)

/-- C9: on the license descriptor `apache-2.0`, at any verbosity, log
sink, process id and monotone clock readings, `calculate_license_score`
returns score `1.0` with non-negative latency (the tier matching on
this input is exception-free, so no fault occurs). -/
theorem C9_apache_score (verbosity : ℤ) (log_queue : List String) (pid : ℕ)
    (t0 t1 : ℚ) (hclock : t0 ≤ t1) :
    (LicenseMetric.calculate_license_score (some "apache-2.0") verbosity log_queue
      pid false t0 t1).1.1 = 1 ∧
    0 ≤ (LicenseMetric.calculate_license_score (some "apache-2.0") verbosity log_queue
          pid false t0 t1).1.2 := by
  constructor
  · show (LicenseMetric.tier_result (LicenseMetric.license_text_of (some "apache-2.0"))).1 = 1
    rfl
  · show (0 : ℚ) ≤ t1 - t0
    exact sub_nonneg.mpr hclock

/-- C9 witness: the theorem at verbosity 1, empty queue, pid 3 and clock
readings 0 and 2. -/
theorem C9_apache_score_witness :
    (LicenseMetric.calculate_license_score (some "apache-2.0") 1 [] 3 false 0 2).1.1 = 1 ∧
    0 ≤ (LicenseMetric.calculate_license_score (some "apache-2.0") 1 [] 3 false 0 2).1.2 :=
  C9_apache_score 1 [] 3 0 2 (by norm_num)

/-- C1: for every selected metric set (as a duplicate-free name list),
every input record, every evaluation outcome (individual failures
included) and every completion order, the evaluator's report carries
exactly the selected metric names, each exactly once: its key list is a
permutation of the selected names and has no duplicates. -/
theorem C1_report_keys (selected completed : List String)
    (R : Evaluator.MetricInputRecord)
    (evalMetric : String → Evaluator.MetricInputRecord → Option Evaluator.MetricResult)
    (fallback : Evaluator.MetricResult)
    (hnodup : selected.Nodup) (hperm : completed.Perm selected) :
    ((Evaluator.run_concurrently R evalMetric fallback completed).1.map Prod.fst).Perm
      selected ∧
    ((Evaluator.run_concurrently R evalMetric fallback completed).1.map Prod.fst).Nodup := by
  have hkeys : (Evaluator.run_concurrently R evalMetric fallback completed).1.map Prod.fst =
      completed := by
    simp only [Evaluator.run_concurrently, List.map_map]
    have hcomp : Prod.fst ∘ (fun name => (name, (evalMetric name R).getD fallback)) =
        @id String := rfl
    rw [hcomp, List.map_id]
  rw [hkeys]
  exact ⟨hperm, hperm.nodup_iff.mpr hnodup⟩

/-- C1 witness: two metrics collected in the reverse of dispatch order,
both failing (the oracle returns `none` for every name): the report
still carries exactly the two selected names, once each. -/
theorem C1_report_keys_witness :
    ((Evaluator.run_concurrently default (fun _ _ => none) default
        ["size_score", "license"]).1.map Prod.fst).Perm ["license", "size_score"] ∧
    ((Evaluator.run_concurrently default (fun _ _ => none) default
        ["size_score", "license"]).1.map Prod.fst).Nodup :=
  C1_report_keys ["license", "size_score"] ["size_score", "license"] default
    (fun _ _ => none) default (by decide) (by decide)

/-- C3, counterexample: the claim reads the revision rule as "fourth path
segment is `tree`, fifth is the revision". On
`https://host/ns/repo/tree/v2` the fourth stripped path segment is `v2`,
not `tree`, and no fifth segment exists, so the claim requires revision
`"main"`; the code returns `"v2"` (the `tree` tag sits in the *third*
segment and the revision in the *fourth*). -/
theorem C3_counterexample :
    (UrlClass.pathSegments "https://host/ns/repo/tree/v2").getD 3 "" ≠ "tree" ∧
    (UrlClass.pathSegments "https://host/ns/repo/tree/v2").length < 5 ∧
    UrlClass.parse_huggingface_url "https://host/ns/repo/tree/v2" = .ok ("ns", "repo", "v2") ∧
    ("v2" : String) ≠ "main" :=
  ⟨by decide, by decide, rfl, by decide⟩

/-- C3 (amended): for every URL accepted by `parse_huggingface_url`, if the
*third* slash-separated segment of the stripped path equals `tree` and a
*fourth* segment exists, the returned revision is that fourth segment;
for every other accepted URL the returned revision is `"main"`. -/
theorem C3_tree_revision (url ns repo rev : String)
    (h : UrlClass.parse_huggingface_url url = .ok (ns, repo, rev)) :
    rev =
      if 4 ≤ (UrlClass.pathSegments url).length ∧
          (UrlClass.pathSegments url).getD 2 "" = "tree"
        then (UrlClass.pathSegments url).getD 3 ""
        else "main" := by
  unfold UrlClass.parse_huggingface_url at h
  rcases hseg : UrlClass.pathSegments url with _ | ⟨a, _ | ⟨b, _ | ⟨t, _ | ⟨r, rest⟩⟩⟩⟩ <;>
      rw [hseg] at h <;> simp_all

/-- C3 witness: the amended theorem applied to
`https://host/ns/repo/tree/v2`, whose third segment is `tree`. -/
theorem C3_tree_revision_witness :
    ("v2" : String) =
      if 4 ≤ (UrlClass.pathSegments "https://host/ns/repo/tree/v2").length ∧
          (UrlClass.pathSegments "https://host/ns/repo/tree/v2").getD 2 "" = "tree"
        then (UrlClass.pathSegments "https://host/ns/repo/tree/v2").getD 3 ""
        else "main" :=
  C3_tree_revision "https://host/ns/repo/tree/v2" "ns" "repo" "v2" rfl

/-- C4: `parse_huggingface_url` maps `https://host/ns/repo` to
`(ns, repo, "main")` and `https://host/ns/repo/tree/v2` to
`(ns, repo, "v2")`. -/
theorem C4_identity_examples :
    UrlClass.parse_huggingface_url "https://host/ns/repo" = .ok ("ns", "repo", "main") ∧
    UrlClass.parse_huggingface_url "https://host/ns/repo/tree/v2" = .ok ("ns", "repo", "v2") :=
  ⟨rfl, rfl⟩

/-- C5: `parse_huggingface_url` succeeds exactly when the stripped path
splits into at least two slash-separated segments, and in particular
`https://host/onlyonesegment` fails with a format error. -/
theorem C5_two_segments_required :
    (∀ url : String,
      (∃ v, UrlClass.parse_huggingface_url url = .ok v) ↔
        2 ≤ (UrlClass.pathSegments url).length) ∧
    ∃ e, UrlClass.parse_huggingface_url "https://host/onlyonesegment" = .error e := by
  constructor
  · intro url
    rcases hseg : UrlClass.pathSegments url with _ | ⟨a, _ | ⟨b, rest⟩⟩ <;>
      simp [UrlClass.parse_huggingface_url, hseg]
  · exact ⟨_, rfl⟩

/-- C6: for every non-empty dataset link, `parse_dataset_url` is a
two-branch recognizer: a URL whose netloc is under `huggingface.co` with
a `datasets` namespace segment yields the trailing path segment; a URL
whose netloc is under `github.com` (and not under `huggingface.co`) is
returned verbatim; a URL under neither domain is a recognition error. -/
theorem C6_dataset_recognizer (url : String) (hne : url ≠ "") :
    (Py.strContains (UrlClass.urlNetloc url) "huggingface.co" = true →
      2 ≤ (UrlClass.pathSegments url).length →
      (UrlClass.pathSegments url).headD "" = "datasets" →
      UrlClass.parse_dataset_url url = .ok ((UrlClass.pathSegments url).getLastD "")) ∧
    (Py.strContains (UrlClass.urlNetloc url) "huggingface.co" = false →
      Py.strContains (UrlClass.urlNetloc url) "github.com" = true →
      UrlClass.parse_dataset_url url = .ok url) ∧
    (Py.strContains (UrlClass.urlNetloc url) "huggingface.co" = false →
      Py.strContains (UrlClass.urlNetloc url) "github.com" = false →
      ∃ e, UrlClass.parse_dataset_url url = .error e) := by
  refine ⟨fun h1 h2 h3 => ?_, fun h1 h2 => ?_, fun h1 h2 => ?_⟩
  · rw [UrlClass.parse_dataset_url, if_pos h1, if_neg]
    push_neg
    exact ⟨h2, h3⟩
  · rw [UrlClass.parse_dataset_url, if_neg (by simp [h1]), if_pos h2]
  · exact ⟨_, by rw [UrlClass.parse_dataset_url, if_neg (by simp [h1]), if_neg (by simp [h2])]⟩

/-- C6 witness: the recognizer applied to a Hugging Face dataset URL with
a `datasets` namespace segment yields the trailing segment. -/
theorem C6_dataset_recognizer_witness :
    UrlClass.parse_dataset_url "https://huggingface.co/datasets/stanfordnlp/imdb" =
      .ok ((UrlClass.pathSegments "https://huggingface.co/datasets/stanfordnlp/imdb").getLastD "") :=
  (C6_dataset_recognizer "https://huggingface.co/datasets/stanfordnlp/imdb"
    (by decide)).1 (by decide) (by decide) (by decide)
